import Mathlib

/-!
Verification of the XLM-RoBERTa tokenizer
(src/transformers/tokenization_xlm_roberta.py): the fairseq index
remapping layer, the special-token sequence builders, and vocabulary
persistence, shallowly embedded in Lean 4.

The external SentencePiece engine is modelled as a structure of its
interface operations; the tokenizer's own code is translated function by
function from the Python source.
-/

namespace XLMRoberta

/-- The external SentencePiece segmentation engine, at its interface
boundary: reported vocabulary size, piece-to-local-id lookup (total:
returns a placeholder id for unknown pieces), and local-id-to-piece
lookup (fails out of range, modelled as `Option`). -/
structure SPEngine where
  size : Nat
  pieceToId : String → Int
  idToPiece : Int → Option String

/-- Interface guarantees of the engine, as the spec states them:
local-id-to-piece succeeds exactly on `[0, size)`; piece-to-local-id
always lands in `[0, size)`; it inverts local-id-to-piece on known
pieces; and unknown pieces map to the engine's unknown placeholder,
which occupies local id 0. -/
def SPEngine.WF (e : SPEngine) : Prop :=
  (∀ i : Int, (e.idToPiece i).isSome ↔ 0 ≤ i ∧ i < (e.size : Int)) ∧
  (∀ p : String, 0 ≤ e.pieceToId p ∧ e.pieceToId p < (e.size : Int)) ∧
  (∀ (i : Int) (p : String), e.idToPiece i = some p → e.pieceToId p = i) ∧
  (∀ p : String, (∀ i : Int, e.idToPiece i ≠ some p) → e.pieceToId p = 0)

/-- The alignment between the fairseq vocabulary and the spm vocabulary
documented in the source comment table: spm local ids 0, 1, 2 hold
`<unk>`, `<s>`, `</s>`; distinct local ids hold distinct pieces; and the
strings `<pad>` and `<mask>` do not occur in the spm vocabulary. -/
def SPEngine.Aligned (e : SPEngine) : Prop :=
  e.idToPiece 0 = some "<unk>" ∧
  e.idToPiece 1 = some "<s>" ∧
  e.idToPiece 2 = some "</s>" ∧
  (∀ (i j : Int) (p : String),
    e.idToPiece i = some p → e.idToPiece j = some p → i = j) ∧
  (∀ i : Int, e.idToPiece i ≠ some "<pad>") ∧
  (∀ i : Int, e.idToPiece i ≠ some "<mask>")

/-- Source: `self.fairseq_offset = 1`. -/
def fairseq_offset : Int := 1

/-- Source: the initial dict assigning ids 0, 1, 2, 3 to the four
structural tokens, before the mask entry is added. -/
def fairseq_base_tokens : List (String × Int) :=
  [("<s>", 0), ("<pad>", 1), ("</s>", 2), ("<unk>", 3)]

/-- The full reserved-token table after
`self.fairseq_tokens_to_ids[mask] = len(self.sp_model) + len(self.fairseq_tokens_to_ids)`:
the four structural entries plus mask at `engine_size + 4`. -/
def fairseq_tokens_to_ids_list (e : SPEngine) : List (String × Int) :=
  fairseq_base_tokens ++
    [("<mask>", (e.size : Int) + (fairseq_base_tokens.length : Int))]

/-- Lookup in `self.fairseq_tokens_to_ids`. -/
def fairseq_tokens_to_ids (e : SPEngine) (token : String) : Option Int :=
  (fairseq_tokens_to_ids_list e).lookup token

/-- Lookup in `self.fairseq_ids_to_tokens`, the dict inversion
`{v: k for k, v in self.fairseq_tokens_to_ids.items()}` (all five ids
are distinct, so first-match lookup is the inversion). -/
def fairseq_ids_to_tokens (e : SPEngine) (i : Int) : Option String :=
  ((fairseq_tokens_to_ids_list e).map (fun kv => (kv.2, kv.1))).lookup i

/-- Source: `_convert_token_to_id`; reserved table first, otherwise
`sp_model.PieceToId(token) + fairseq_offset`. -/
def convert_token_to_id (e : SPEngine) (token : String) : Int :=
  match fairseq_tokens_to_ids e token with
  | some i => i
  | none => e.pieceToId token + fairseq_offset

/-- Source: `_convert_id_to_token`; reserved table first, otherwise
`sp_model.IdToPiece(index - fairseq_offset)` (which fails out of range,
hence `Option`). -/
def convert_id_to_token (e : SPEngine) (index : Int) : Option String :=
  match fairseq_ids_to_tokens e index with
  | some t => some t
  | none => e.idToPiece (index - fairseq_offset)

/-- Source: `vocab_size`, that is `len(self.sp_model) + len(self.fairseq_tokens_to_ids)`. -/
def vocab_size (e : SPEngine) : Nat :=
  e.size + (fairseq_tokens_to_ids_list e).length

/-- The five reserved token strings. -/
def reserved_tokens : List String := ["<s>", "<pad>", "</s>", "<unk>", "<mask>"]

theorem lookup_cons_self {α β : Type} [BEq α] [LawfulBEq α] (a : α) (b : β)
    (l : List (α × β)) : List.lookup a ((a, b) :: l) = some b := by
  rw [List.lookup_cons, beq_self_eq_true]

theorem lookup_cons_ne {α β : Type} [BEq α] [LawfulBEq α] {a k : α} (b : β)
    (l : List (α × β)) (h : a ≠ k) :
    List.lookup a ((k, b) :: l) = List.lookup a l := by
  rw [List.lookup_cons, beq_eq_false_iff_ne.mpr h]

theorem fairseq_tokens_to_ids_list_eq (e : SPEngine) :
    fairseq_tokens_to_ids_list e =
      [("<s>", 0), ("<pad>", 1), ("</s>", 2), ("<unk>", 3),
        ("<mask>", (e.size : Int) + 4)] := rfl

theorem fairseq_tokens_to_ids_eq (e : SPEngine) (t : String) :
    fairseq_tokens_to_ids e t =
      if t = "<s>" then some 0
      else if t = "<pad>" then some 1
      else if t = "</s>" then some 2
      else if t = "<unk>" then some 3
      else if t = "<mask>" then some ((e.size : Int) + 4)
      else none := by
  rw [fairseq_tokens_to_ids, fairseq_tokens_to_ids_list_eq]
  split_ifs with h1 h2 h3 h4 h5
  · subst h1; rw [lookup_cons_self]
  · subst h2; rw [lookup_cons_ne _ _ (by decide), lookup_cons_self]
  · subst h3
    rw [lookup_cons_ne _ _ (by decide), lookup_cons_ne _ _ (by decide),
      lookup_cons_self]
  · subst h4
    rw [lookup_cons_ne _ _ (by decide), lookup_cons_ne _ _ (by decide),
      lookup_cons_ne _ _ (by decide), lookup_cons_self]
  · subst h5
    rw [lookup_cons_ne _ _ (by decide), lookup_cons_ne _ _ (by decide),
      lookup_cons_ne _ _ (by decide), lookup_cons_ne _ _ (by decide),
      lookup_cons_self]
  · rw [lookup_cons_ne _ _ h1, lookup_cons_ne _ _ h2, lookup_cons_ne _ _ h3,
      lookup_cons_ne _ _ h4, lookup_cons_ne _ _ h5, List.lookup_nil]

theorem fairseq_ids_to_tokens_eq (e : SPEngine) (i : Int) :
    fairseq_ids_to_tokens e i =
      if i = 0 then some "<s>"
      else if i = 1 then some "<pad>"
      else if i = 2 then some "</s>"
      else if i = 3 then some "<unk>"
      else if i = (e.size : Int) + 4 then some "<mask>"
      else none := by
  rw [fairseq_ids_to_tokens, fairseq_tokens_to_ids_list_eq]
  simp only [List.map_cons, List.map_nil]
  split_ifs with h1 h2 h3 h4 h5
  · subst h1; rw [lookup_cons_self]
  · subst h2; rw [lookup_cons_ne _ _ (by decide), lookup_cons_self]
  · subst h3
    rw [lookup_cons_ne _ _ (by decide), lookup_cons_ne _ _ (by decide),
      lookup_cons_self]
  · subst h4
    rw [lookup_cons_ne _ _ (by decide), lookup_cons_ne _ _ (by decide),
      lookup_cons_ne _ _ (by decide), lookup_cons_self]
  · subst h5
    rw [lookup_cons_ne _ _ (by omega), lookup_cons_ne _ _ (by omega),
      lookup_cons_ne _ _ (by omega), lookup_cons_ne _ _ (by omega),
      lookup_cons_self]
  · rw [lookup_cons_ne _ _ h1, lookup_cons_ne _ _ h2, lookup_cons_ne _ _ h3,
      lookup_cons_ne _ _ h4, lookup_cons_ne _ _ h5, List.lookup_nil]

/-- Claim C2: both conversion directions resolve the five reserved
tokens through the fixed table: the strings map to ids 0, 1, 2, 3 and
`engine_size + 4`, and those ids map back to the strings, for every
engine, regardless of where the engine places these strings in its own
numbering. -/
theorem reserved_table_resolves_first (e : SPEngine) :
    convert_token_to_id e "<s>" = 0 ∧
    convert_token_to_id e "<pad>" = 1 ∧
    convert_token_to_id e "</s>" = 2 ∧
    convert_token_to_id e "<unk>" = 3 ∧
    convert_token_to_id e "<mask>" = (e.size : Int) + 4 ∧
    convert_id_to_token e 0 = some "<s>" ∧
    convert_id_to_token e 1 = some "<pad>" ∧
    convert_id_to_token e 2 = some "</s>" ∧
    convert_id_to_token e 3 = some "<unk>" ∧
    convert_id_to_token e ((e.size : Int) + 4) = some "<mask>" := by
  refine ⟨?_, ?_, ?_, ?_, ?_, ?_, ?_, ?_, ?_, ?_⟩
  · simp [convert_token_to_id, fairseq_tokens_to_ids_eq]
  · simp [convert_token_to_id, fairseq_tokens_to_ids_eq]
  · simp [convert_token_to_id, fairseq_tokens_to_ids_eq]
  · simp [convert_token_to_id, fairseq_tokens_to_ids_eq]
  · simp [convert_token_to_id, fairseq_tokens_to_ids_eq]
  · simp [convert_id_to_token, fairseq_ids_to_tokens_eq]
  · simp [convert_id_to_token, fairseq_ids_to_tokens_eq]
  · simp [convert_id_to_token, fairseq_ids_to_tokens_eq]
  · simp [convert_id_to_token, fairseq_ids_to_tokens_eq]
  · rw [convert_id_to_token, fairseq_ids_to_tokens_eq,
      if_neg (by omega), if_neg (by omega), if_neg (by omega),
      if_neg (by omega), if_pos rfl]

/-- Claim C3: the public vocabulary size is the engine's reported size
plus 5 (the reserved-token table has exactly five entries). -/
theorem vocab_size_eq (e : SPEngine) : vocab_size e = e.size + 5 := by
  simp [vocab_size, fairseq_tokens_to_ids_list, fairseq_base_tokens]

/-- The begin-of-sequence token id: `bos_token` defaults to the string
`<s>`, resolved through `_convert_token_to_id`. -/
def bos_token_id (e : SPEngine) : Int := convert_token_to_id e "<s>"

/-- The end-of-sequence token id: `eos_token` defaults to the string
`</s>`, resolved through `_convert_token_to_id`. -/
def eos_token_id (e : SPEngine) : Int := convert_token_to_id e "</s>"

/-- Source: `self.cls_token_id`; `cls_token` defaults to `<s>`. -/
def cls_token_id (e : SPEngine) : Int := convert_token_to_id e "<s>"

/-- Source: `self.sep_token_id`; `sep_token` defaults to `</s>`. -/
def sep_token_id (e : SPEngine) : Int := convert_token_to_id e "</s>"

/-- Source: `build_inputs_with_special_tokens`; a single sequence gives
cls + tokens + sep; a pair gives cls + A + sep + sep + B + sep. -/
def build_inputs_with_special_tokens (e : SPEngine) (token_ids_0 : List Int)
    (token_ids_1 : Option (List Int)) : List Int :=
  match token_ids_1 with
  | none => [cls_token_id e] ++ token_ids_0 ++ [sep_token_id e]
  | some ids1 =>
    [cls_token_id e] ++ token_ids_0 ++ [sep_token_id e] ++ [sep_token_id e]
      ++ ids1 ++ [sep_token_id e]

/-- The message of the `ValueError` raised by `get_special_tokens_mask`. -/
def second_sequence_error : String :=
  "You should not supply a second sequence if the provided sequence of ids is already formated with special tokens for the model."

/-- Source: `get_special_tokens_mask`; with `already_has_special_tokens` set, a
second sequence raises `ValueError` (modelled as `Except.error`), and
otherwise the mask is computed elementwise against sep/cls; without the
flag the mask is built from the lengths of the inputs. -/
def get_special_tokens_mask (e : SPEngine) (token_ids_0 : List Int)
    (token_ids_1 : Option (List Int)) (already_has_special_tokens : Bool) :
    Except String (List Int) :=
  if already_has_special_tokens then
    match token_ids_1 with
    | some _ => Except.error second_sequence_error
    | none =>
      Except.ok (token_ids_0.map (fun x =>
        if x = sep_token_id e ∨ x = cls_token_id e then 1 else 0))
  else
    match token_ids_1 with
    | none => Except.ok ([1] ++ List.replicate token_ids_0.length 0 ++ [1])
    | some ids1 =>
      Except.ok ([1] ++ List.replicate token_ids_0.length 0 ++ [1, 1]
        ++ List.replicate ids1.length 0 ++ [1])

/-- Source: `create_token_type_ids_from_sequences`;
`len(cls + A + sep) * [0]` for one sequence, and
`len(cls + A + sep + sep) * [0] + len(B + sep) * [1]` for a pair. -/
def create_token_type_ids_from_sequences (e : SPEngine)
    (token_ids_0 : List Int) (token_ids_1 : Option (List Int)) : List Int :=
  match token_ids_1 with
  | none =>
    List.replicate ([cls_token_id e] ++ token_ids_0 ++ [sep_token_id e]).length 0
  | some ids1 =>
    List.replicate
      ([cls_token_id e] ++ token_ids_0 ++ [sep_token_id e]
        ++ [sep_token_id e]).length 0
      ++ List.replicate (ids1 ++ [sep_token_id e]).length 1

theorem cls_token_id_eq (e : SPEngine) : cls_token_id e = 0 :=
  (reserved_table_resolves_first e).1

theorem sep_token_id_eq (e : SPEngine) : sep_token_id e = 2 :=
  (reserved_table_resolves_first e).2.2.1

/-- Claim C4: building model inputs from one sequence A yields
BOS + A + EOS, and from a pair A, B yields
BOS + A + EOS + EOS + B + EOS, with exactly two EOS tokens between the
two sequences. -/
theorem build_inputs_spec (e : SPEngine) (A B : List Int) :
    build_inputs_with_special_tokens e A none =
      bos_token_id e :: (A ++ [eos_token_id e]) ∧
    build_inputs_with_special_tokens e A (some B) =
      bos_token_id e ::
        (A ++ eos_token_id e :: eos_token_id e :: (B ++ [eos_token_id e])) := by
  constructor <;>
    simp [build_inputs_with_special_tokens, bos_token_id, eos_token_id,
      cls_token_id, sep_token_id]

/-- Claim C5: with `already_has_special_tokens = false`, the
special-token mask is 1, then len(A) zeros, then 1 for a single
sequence, and 1, len(A) zeros, 1, 1, len(B) zeros, 1 for a pair; in
both cases its length equals that of the corresponding
`build_inputs_with_special_tokens` output. -/
theorem special_tokens_mask_spec (e : SPEngine) (A B : List Int) :
    get_special_tokens_mask e A none false =
      Except.ok (1 :: (List.replicate A.length 0 ++ [1])) ∧
    get_special_tokens_mask e A (some B) false =
      Except.ok (1 :: (List.replicate A.length 0
        ++ 1 :: 1 :: (List.replicate B.length 0 ++ [1]))) ∧
    (1 :: (List.replicate A.length 0 ++ [1]) : List Int).length =
      (build_inputs_with_special_tokens e A none).length ∧
    (1 :: (List.replicate A.length 0
        ++ 1 :: 1 :: (List.replicate B.length 0 ++ [1])) : List Int).length =
      (build_inputs_with_special_tokens e A (some B)).length := by
  refine ⟨?_, ?_, ?_, ?_⟩ <;>
    simp [get_special_tokens_mask, build_inputs_with_special_tokens]

/-- Claim C6: the segment-type mask for A alone is all zeros with the
length of `build_inputs(A)`; for A with B it is
len(cls + A + sep + sep) zeros followed by len(B + sep) ones, so the
second EOS of the separator pair falls in the zero block. -/
theorem token_type_ids_spec (e : SPEngine) (A B : List Int) :
    create_token_type_ids_from_sequences e A none =
      List.replicate (build_inputs_with_special_tokens e A none).length 0 ∧
    create_token_type_ids_from_sequences e A (some B) =
      List.replicate (A.length + 3) 0 ++ List.replicate (B.length + 1) 1 := by
  constructor <;>
    simp [create_token_type_ids_from_sequences,
      build_inputs_with_special_tokens]

/-- Claim C8: asking for the special-token mask with
`already_has_special_tokens = true` and a second sequence supplied
returns the `ValueError` immediately; no mask is produced (the function
is pure, so nothing else is affected). -/
theorem special_tokens_mask_pair_already_tagged_fails (e : SPEngine)
    (A B : List Int) :
    get_special_tokens_mask e A (some B) true =
      Except.error second_sequence_error := rfl

/-- The spm vocabulary of the source comment table: the pieces at
engine-local ids 0 through 9. -/
def spm_pieces : List String :=
  ["<unk>", "<s>", "</s>", ",", ".", "▁", "s", "▁de", "-", "▁a"]

/-- A concrete ten-piece engine realizing the alignment table in the
source comment (spm row), with lookups over `spm_pieces`. -/
def e0 : SPEngine where
  size := spm_pieces.length
  pieceToId := fun p =>
    if p ∈ spm_pieces then ((spm_pieces.indexOf p : Nat) : Int) else 0
  idToPiece := fun i => if 0 ≤ i then spm_pieces[i.toNat]? else none

theorem e0_idToPiece_some {i : Int} {p : String}
    (h : e0.idToPiece i = some p) :
    0 ≤ i ∧ i.toNat < spm_pieces.length ∧ spm_pieces[i.toNat]? = some p := by
  simp only [e0] at h
  split_ifs at h with h0
  obtain ⟨hlt, -⟩ := List.getElem?_eq_some_iff.mp h
  exact ⟨h0, hlt, h⟩

theorem spm_pieces_nodup : spm_pieces.Nodup := by decide

theorem e0_wf : SPEngine.WF e0 := by
  refine ⟨?_, ?_, ?_, ?_⟩
  · intro i
    constructor
    · intro hs
      obtain ⟨p, hp⟩ := Option.isSome_iff_exists.mp hs
      obtain ⟨h0, hlt, -⟩ := e0_idToPiece_some hp
      refine ⟨h0, ?_⟩
      simp only [e0]
      omega
    · rintro ⟨hge, hlt⟩
      simp only [e0] at hlt ⊢
      rw [if_pos hge, Option.isSome_iff_exists]
      exact ⟨_, List.getElem?_eq_getElem (by omega)⟩
  · intro p
    simp only [e0]
    split_ifs with hmem
    · have hlt := List.indexOf_lt_length.mpr hmem
      omega
    · refine ⟨le_refl 0, by decide⟩
  · intro i p h
    obtain ⟨h0, hlt, hget⟩ := e0_idToPiece_some h
    have hmem : p ∈ spm_pieces := List.getElem?_mem hget
    have hval : spm_pieces[i.toNat] = p :=
      (List.getElem?_eq_some_iff.mp hget).choose_spec
    have hidx : spm_pieces.indexOf p = i.toNat := by
      rw [← hval]
      exact List.indexOf_getElem spm_pieces_nodup i.toNat hlt
    simp only [e0]
    rw [if_pos hmem, hidx]
    omega
  · intro p h
    have hnm : p ∉ spm_pieces := by
      intro hmem
      have hlt := List.indexOf_lt_length.mpr hmem
      apply h ((spm_pieces.indexOf p : Nat) : Int)
      simp only [e0]
      rw [if_pos (Int.ofNat_nonneg _)]
      have htn : ((spm_pieces.indexOf p : Nat) : Int).toNat =
          spm_pieces.indexOf p := by omega
      rw [htn, List.getElem?_eq_getElem hlt, List.getElem_indexOf hlt]
    simp only [e0]
    rw [if_neg hnm]

theorem e0_aligned : SPEngine.Aligned e0 := by
  refine ⟨by decide, by decide, by decide, ?_, ?_, ?_⟩
  · intro i j p hi hj
    obtain ⟨hi0, hilt, hig⟩ := e0_idToPiece_some hi
    obtain ⟨hj0, hjlt, hjg⟩ := e0_idToPiece_some hj
    have htn : i.toNat = j.toNat :=
      List.getElem?_inj hilt spm_pieces_nodup (by rw [hig, hjg])
    omega
  · intro i h
    exact absurd (List.getElem?_mem (e0_idToPiece_some h).2.2) (by decide)
  · intro i h
    exact absurd (List.getElem?_mem (e0_idToPiece_some h).2.2) (by decide)

/-- Claim C1: over a well-formed, aligned engine, for every piece p in
the engine vocabulary that is not one of the 5 reserved token strings,
converting to an id and back returns p; and every valid public id i
other than the 5 reserved ids converts to a token whose id is i again.
The public id of a non-reserved piece is its engine-local id plus the
fairseq offset, in both directions. -/
theorem roundtrip_non_reserved (e : SPEngine) (hwf : e.WF) (hal : e.Aligned) :
    (∀ (p : String) (i : Int), p ∉ reserved_tokens → e.idToPiece i = some p →
      convert_id_to_token e (convert_token_to_id e p) = some p ∧
      convert_token_to_id e p = e.pieceToId p + fairseq_offset) ∧
    (∀ i : Int, 0 ≤ i - fairseq_offset → i - fairseq_offset < (e.size : Int) →
      i ≠ 0 → i ≠ 1 → i ≠ 2 → i ≠ 3 → i ≠ (e.size : Int) + 4 →
      ∃ p, convert_id_to_token e i = some p ∧ convert_token_to_id e p = i) := by
  obtain ⟨hdom, hbound, hinv, hzero⟩ := hwf
  obtain ⟨ha0, ha1, ha2, hinj, hpad, hmask⟩ := hal
  constructor
  · intro p i hres hip
    simp only [reserved_tokens, List.mem_cons, List.not_mem_nil, or_false,
      not_or] at hres
    obtain ⟨hns, hnp, hnss, hnu, hnm⟩ := hres
    have hpi : e.pieceToId p = i := hinv i p hip
    have hib : 0 ≤ i ∧ i < (e.size : Int) := (hdom i).mp (by rw [hip]; rfl)
    have hi0 : i ≠ 0 := by
      rintro rfl
      rw [ha0] at hip
      exact hnu (Option.some.inj hip).symm
    have hi1 : i ≠ 1 := by
      rintro rfl
      rw [ha1] at hip
      exact hns (Option.some.inj hip).symm
    have hi2 : i ≠ 2 := by
      rintro rfl
      rw [ha2] at hip
      exact hnss (Option.some.inj hip).symm
    have hform : convert_token_to_id e p = i + fairseq_offset := by
      rw [convert_token_to_id, fairseq_tokens_to_ids_eq, if_neg hns,
        if_neg hnp, if_neg hnss, if_neg hnu, if_neg hnm, hpi]
    refine ⟨?_, by rw [hform, hpi]⟩
    rw [hform, convert_id_to_token, fairseq_ids_to_tokens_eq]
    simp only [fairseq_offset] at *
    rw [if_neg (by omega), if_neg (by omega), if_neg (by omega),
      if_neg (by omega), if_neg (by omega)]
    have : i + 1 - 1 = i := by omega
    rw [this, hip]
  · intro i hge hlt hi0 hi1 hi2 hi3 him
    have hsome : (e.idToPiece (i - fairseq_offset)).isSome :=
      (hdom (i - fairseq_offset)).mpr ⟨hge, hlt⟩
    obtain ⟨p, hp⟩ := Option.isSome_iff_exists.mp hsome
    have htok : convert_id_to_token e i = some p := by
      rw [convert_id_to_token, fairseq_ids_to_tokens_eq, if_neg hi0,
        if_neg hi1, if_neg hi2, if_neg hi3, if_neg him, hp]
    refine ⟨p, htok, ?_⟩
    have hge3 : 3 ≤ i - fairseq_offset := by
      simp only [fairseq_offset] at *
      omega
    have hpu : p ≠ "<unk>" := by
      rintro rfl
      have := hinj (i - fairseq_offset) 0 "<unk>" hp ha0
      omega
    have hps : p ≠ "<s>" := by
      rintro rfl
      have := hinj (i - fairseq_offset) 1 "<s>" hp ha1
      omega
    have hpss : p ≠ "</s>" := by
      rintro rfl
      have := hinj (i - fairseq_offset) 2 "</s>" hp ha2
      omega
    have hppad : p ≠ "<pad>" := by
      rintro rfl
      exact hpad _ hp
    have hpm : p ≠ "<mask>" := by
      rintro rfl
      exact hmask _ hp
    rw [convert_token_to_id, fairseq_tokens_to_ids_eq, if_neg hps,
      if_neg hppad, if_neg hpss, if_neg hpu, if_neg hpm, hinv _ _ hp]
    simp only [fairseq_offset]
    omega

/-- Witness for C1 on the concrete ten-piece engine: the piece at
engine-local id 3 (a comma) round-trips through the id maps, and the
valid non-reserved public id 5 round-trips the other way. -/
theorem roundtrip_non_reserved_witness :
    (convert_id_to_token e0 (convert_token_to_id e0 ",") = some "," ∧
      convert_token_to_id e0 "," = e0.pieceToId "," + fairseq_offset) ∧
    ∃ p, convert_id_to_token e0 5 = some p ∧ convert_token_to_id e0 p = 5 :=
  ⟨(roundtrip_non_reserved e0 e0_wf e0_aligned).1 "," 3 (by decide) (by decide),
    (roundtrip_non_reserved e0 e0_wf e0_aligned).2 5 (by decide) (by decide)
      (by decide) (by decide) (by decide) (by decide) (by decide)⟩

/-- Claim C7 counterexample: on the concrete ten-piece engine, the
segment-type mask of A = [10, 11], B = [20, 21, 22] is not six zeros
followed by three ones. -/
theorem segment_mask_example_claim_false :
    create_token_type_ids_from_sequences e0 [10, 11] (some [20, 21, 22]) ≠
      [0, 0, 0, 0, 0, 0, 1, 1, 1] := by decide

/-- Claim C7 as amended: for any engine, the segment-type mask of
A = [10, 11], B = [20, 21, 22] is five zeros followed by four ones:
len(cls + A + sep + sep) = 5 zeros, then len(B + sep) = 4 ones. -/
theorem segment_mask_example (e : SPEngine) :
    create_token_type_ids_from_sequences e [10, 11] (some [20, 21, 22]) =
      [0, 0, 0, 0, 0, 1, 1, 1, 1] := by
  simp [create_token_type_ids_from_sequences, List.replicate_succ]

/-- Claim C10: over a well-formed engine, a string that is neither
reserved nor in the engine vocabulary gets the engine's
unknown-placeholder local id plus the fairseq offset; the placeholder
sits at local id 0, so the string resolves to public id 1, which is the
public id of the padding token, and not to the public unknown id 3. -/
theorem unknown_piece_gets_pad_id (e : SPEngine) (hwf : e.WF) (p : String)
    (hunk : ∀ i : Int, e.idToPiece i ≠ some p) (hres : p ∉ reserved_tokens) :
    convert_token_to_id e p = e.pieceToId p + fairseq_offset ∧
    convert_token_to_id e p = 1 ∧
    convert_token_to_id e "<pad>" = 1 ∧
    convert_token_to_id e p ≠ 3 := by
  obtain ⟨hdom, hbound, hinv, hzero⟩ := hwf
  simp only [reserved_tokens, List.mem_cons, List.not_mem_nil, or_false,
    not_or] at hres
  obtain ⟨hns, hnp, hnss, hnu, hnm⟩ := hres
  have hform : convert_token_to_id e p = e.pieceToId p + fairseq_offset := by
    rw [convert_token_to_id, fairseq_tokens_to_ids_eq, if_neg hns,
      if_neg hnp, if_neg hnss, if_neg hnu, if_neg hnm]
  have hone : convert_token_to_id e p = 1 := by
    rw [hform, hzero p hunk]
    rfl
  exact ⟨hform, hone, (reserved_table_resolves_first e).2.1,
    by rw [hone]; decide⟩

set_option maxHeartbeats 2000000 in
/-- Witness for C10 on the concrete ten-piece engine: the string xyz is
not in the vocabulary and maps to public id 1, not 3. -/
theorem unknown_piece_gets_pad_id_witness :
    convert_token_to_id e0 "xyz" = 1 ∧ convert_token_to_id e0 "xyz" ≠ 3 :=
  ⟨(unknown_piece_gets_pad_id e0 e0_wf "xyz"
      (by
        intro i h
        exact absurd (List.getElem?_mem (e0_idToPiece_some h).2.2)
          (by decide)) (by decide)).2.1,
    (unknown_piece_gets_pad_id e0 e0_wf "xyz"
      (by
        intro i h
        exact absurd (List.getElem?_mem (e0_idToPiece_some h).2.2)
          (by decide)) (by decide)).2.2.2⟩

/-- An abstract file system at the interface save_vocabulary uses:
the directory test, absolute-path resolution, and file contents as
bytes. -/
structure FS where
  isDir : String → Bool
  abspath : String → String
  contents : String → Option (List Nat)

/-- Source: the fixed filename in VOCAB_FILES_NAMES under the
vocab_file key. -/
def vocab_file_name : String := "sentencepiece.bpe.model"

/-- Source: os.path.join of a directory and a filename. -/
def joinPath (dir fname : String) : String := dir ++ "/" ++ fname

/-- Source: shutil.copyfile; the destination gets the source's bytes
and every other path is untouched. -/
def copyfile (fs : FS) (src dst : String) : FS :=
  { fs with
    contents := fun q => if q = dst then fs.contents src else fs.contents q }

/-- Source: save_vocabulary. If the target is not a directory, log and
return without a path; otherwise compute the destination, copy only
when the resolved absolute paths differ, and return the destination
path. The returned state is the file system after the call. -/
def save_vocabulary (fs : FS) (vocab_file save_directory : String) :
    FS × Option String :=
  if fs.isDir save_directory = false then (fs, none)
  else
    let out_vocab_file := joinPath save_directory vocab_file_name
    if fs.abspath vocab_file ≠ fs.abspath out_vocab_file then
      (copyfile fs vocab_file out_vocab_file, some out_vocab_file)
    else
      (fs, some out_vocab_file)

/-- Claim C9: saving into a path that is not a directory leaves the
file system unchanged and returns no path; when source and destination
resolve to the same absolute path nothing is copied yet the destination
path is returned; otherwise the artifact is copied to the directory
joined with the fixed filename and that path is returned. -/
theorem save_vocabulary_spec (fs : FS) (vocab_file save_directory : String) :
    (fs.isDir save_directory = false →
      save_vocabulary fs vocab_file save_directory = (fs, none)) ∧
    (fs.isDir save_directory = true →
      fs.abspath vocab_file =
        fs.abspath (joinPath save_directory vocab_file_name) →
      save_vocabulary fs vocab_file save_directory =
        (fs, some (joinPath save_directory vocab_file_name))) ∧
    (fs.isDir save_directory = true →
      fs.abspath vocab_file ≠
        fs.abspath (joinPath save_directory vocab_file_name) →
      save_vocabulary fs vocab_file save_directory =
        (copyfile fs vocab_file (joinPath save_directory vocab_file_name),
          some (joinPath save_directory vocab_file_name))) := by
  refine ⟨?_, ?_, ?_⟩
  · intro h1
    simp [save_vocabulary, h1]
  · intro h1 h2
    simp [save_vocabulary, h1, h2]
  · intro h1 h2
    simp [save_vocabulary, h1, h2]

/-- A concrete file system with a single directory named dir and
identity path resolution. -/
def fs0 : FS where
  isDir := fun d => d == "dir"
  abspath := fun q => q
  contents := fun _ => none

/-- Witness for C9: on the concrete file system, saving into a
non-directory returns the state unchanged and no path, and saving where
source and destination coincide returns the path without copying. -/
theorem save_vocabulary_spec_witness :
    save_vocabulary fs0 "v" "nodir" = (fs0, none) ∧
    save_vocabulary fs0 "dir/sentencepiece.bpe.model" "dir" =
      (fs0, some (joinPath "dir" vocab_file_name)) :=
  ⟨(save_vocabulary_spec fs0 "v" "nodir").1 (by decide),
    (save_vocabulary_spec fs0 "dir/sentencepiece.bpe.model" "dir").2.1
      (by decide) (by decide)⟩

end XLMRoberta
